import Mathlib

/-!
Verification of the pyftpsync classification and reconciliation engine
(`ftpsync/synchronizers.py`, `ftpsync/ftp_target.py`, `ftpsync/sftp_target.py`).

Timestamps and epsilon tolerances are embedded as rationals, sizes as
integers, file names as strings.  Stateful Python methods become pure
functions that return the updated state together with the list of backend
calls ("effects") they performed; a raised Python exception becomes an
`Except.error` or an `Option String` error component.
-/

namespace PyFtpSync

/-- Per-side classification label (spec section 4.4). -/
inductive Classification where
  | new
  | unmodified
  | modified
  | deleted
  | missing
  | existing
deriving DecidableEq, Repr

/-- Per-pair operation label (spec section 3). -/
inductive Operation where
  | equal
  | copy_local
  | copy_remote
  | delete_local
  | delete_remote
  | need_compare
  | conflict
deriving DecidableEq, Repr

/-- Modelled from the spec: `eps_compare` of `ftpsync/util.py` (the module is
not under `src/`).  Compares two timestamps with tolerance `eps`: `0` when
they are equal within `eps`, `-1` when the first is smaller, `1` otherwise. -/
def eps_compare (t1 t2 eps : ℚ) : Int :=
  if |t1 - t2| ≤ eps then 0 else if t1 - t2 < 0 then -1 else 1

/-- Modelled from the spec: the fixed classification-to-operation table of
section 4.4 (`operation_map` of `ftpsync/resources.py`, which is not under
`src/`).  Unmapped tuples are a programmer error, hence `Option`. -/
def operation_map : Classification × Classification → Option Operation
  | (.new, .missing) => some .copy_local
  | (.missing, .new) => some .copy_remote
  | (.unmodified, .unmodified) => some .equal
  | (.modified, .unmodified) => some .copy_local
  | (.unmodified, .modified) => some .copy_remote
  | (.modified, .modified) => some .conflict
  | (.unmodified, .deleted) => some .delete_local
  | (.deleted, .unmodified) => some .delete_remote
  | (.modified, .deleted) => some .conflict
  | (.deleted, .modified) => some .conflict
  | (.deleted, .deleted) => some .equal
  | (.existing, .existing) => some .need_compare
  | (.new, .new) => some .need_compare
  | (_, _) => none

/-- The mutable state of an `EntryPair` (`ftpsync/resources.py`) that the
synchronizer handlers inspect: directory flag, the two side classifications,
the current operation, and the attributes of both sides. -/
structure EntryPairState where
  is_dir : Bool
  local_classification : Classification
  remote_classification : Classification
  operation : Operation
  local_mtime : ℚ
  remote_mtime : ℚ
  local_size : Int
  remote_size : Int
deriving DecidableEq, Repr

/-- `BiDirSynchronizer.on_need_compare` (src/ftpsync/synchronizers.py lines
909-970).  Directory pairs are re-labelled `(existing, existing)` with
operation `equal` and the handler returns (children are walked later).
File pairs classified `(existing, existing)` or `(new, new)` are re-labelled
by comparing mtimes with `eps_compare` and then sizes; the resulting tuple is
mapped through `operation_map`.  The two `RuntimeError` branches (undefined
operation, failed re-classification) become `Except.error`. -/
def onNeedCompare (eps : ℚ) (p : EntryPairState) : Except String EntryPairState :=
  if p.is_dir then
    Except.ok { p with
      local_classification := .existing
      remote_classification := .existing
      operation := .equal }
  else
    let c0 := (p.local_classification, p.remote_classification)
    let c :=
      if c0 = (.existing, .existing) then
        let time_cmp := eps_compare p.local_mtime p.remote_mtime eps
        if time_cmp < 0 then (Classification.unmodified, Classification.modified)
        else if time_cmp > 0 then (Classification.modified, Classification.unmodified)
        else if p.local_size = p.remote_size then
          (Classification.unmodified, Classification.unmodified)
        else (Classification.modified, Classification.modified)
      else if c0 = (.new, .new) then
        let time_cmp := eps_compare p.local_mtime p.remote_mtime eps
        if time_cmp = 0 ∧ p.local_size = p.remote_size then
          (Classification.unmodified, Classification.unmodified)
        else (Classification.modified, Classification.modified)
      else c0
    match operation_map c with
    | none => Except.error "Undefined operation for pair classification"
    | some op =>
      if op = p.operation then Except.error "Could not re-classify"
      else Except.ok { p with
        local_classification := c.1
        remote_classification := c.2
        operation := op }

/-- The operation table sends a tuple to `need_compare` exactly for
`(existing, existing)` and `(new, new)`. -/
theorem operation_map_eq_need_compare {c : Classification × Classification}
    (h : operation_map c = some Operation.need_compare) :
    c = (Classification.existing, Classification.existing) ∨
      c = (Classification.new, Classification.new) := by
  rcases c with ⟨l, r⟩
  cases l <;> cases r <;> simp_all [operation_map]

/-- Claim C1: whenever a pair's operation is `need_compare` (equivalently, its
classification tuple maps to `need_compare`), `on_need_compare` re-labels the
pair by comparing mtimes within `mtime_eps` and then sizes: every directory
pair becomes `equal`; a file pair with equal mtime (within `eps`) and equal
size becomes `equal`; a file pair that is still indistinguishable (equal mtime
within `eps` but different size) becomes `conflict`. -/
theorem need_compare_resolution (eps : ℚ) (p : EntryPairState)
    (hop : p.operation = Operation.need_compare)
    (hmap : operation_map (p.local_classification, p.remote_classification) =
      some Operation.need_compare) :
    (p.is_dir = true → onNeedCompare eps p = Except.ok { p with
        local_classification := Classification.existing
        remote_classification := Classification.existing
        operation := Operation.equal })
    ∧ (p.is_dir = false → |p.local_mtime - p.remote_mtime| ≤ eps →
        p.local_size = p.remote_size →
        onNeedCompare eps p = Except.ok { p with
          local_classification := Classification.unmodified
          remote_classification := Classification.unmodified
          operation := Operation.equal })
    ∧ (p.is_dir = false → |p.local_mtime - p.remote_mtime| ≤ eps →
        p.local_size ≠ p.remote_size →
        onNeedCompare eps p = Except.ok { p with
          local_classification := Classification.modified
          remote_classification := Classification.modified
          operation := Operation.conflict }) := by
  refine ⟨fun hdir => by simp [onNeedCompare, hdir], ?_, ?_⟩
  · intro hdir hsame hsize
    have htc : eps_compare p.local_mtime p.remote_mtime eps = 0 := by
      simp [eps_compare, hsame]
    rcases operation_map_eq_need_compare hmap with hc | hc <;>
      simp [onNeedCompare, hdir, hc, htc, hsize, hop, operation_map]
  · intro hdir hsame hsize
    have htc : eps_compare p.local_mtime p.remote_mtime eps = 0 := by
      simp [eps_compare, hsame]
    rcases operation_map_eq_need_compare hmap with hc | hc <;>
      simp [onNeedCompare, hdir, hc, htc, hsize, hop, operation_map]

/-- Concrete run of `need_compare_resolution`: a `(new, new)` file pair with
equal mtimes (eps 2) and equal sizes is re-labelled `equal`. -/
theorem need_compare_resolution_witness :
    onNeedCompare 2
        { is_dir := false
          local_classification := Classification.new
          remote_classification := Classification.new
          operation := Operation.need_compare
          local_mtime := 10
          remote_mtime := 10
          local_size := 5
          remote_size := 5 } =
      Except.ok
        { is_dir := false
          local_classification := Classification.unmodified
          remote_classification := Classification.unmodified
          operation := Operation.equal
          local_mtime := 10
          remote_mtime := 10
          local_size := 5
          remote_size := 5 } :=
  (need_compare_resolution 2
      { is_dir := false
        local_classification := Classification.new
        remote_classification := Classification.new
        operation := Operation.need_compare
        local_mtime := 10
        remote_mtime := 10
        local_size := 5
        remote_size := 5 } rfl rfl).2.1 rfl (by simp) rfl

/-! ## Synchronizer state, statistics and backend effects -/

/-- The statistics counters of `BaseSynchronizer._stats` that the mutating
actions touch (src/ftpsync/synchronizers.py lines 118-145).  The wall-clock
timing entries (`elap_secs`, `write_time`, ...) are not modelled. -/
structure Stats where
  bytes_written : Nat
  copy_errors : Nat
  dirs_created : Nat
  dirs_deleted : Nat
  download_files_written : Nat
  entries_seen : Nat
  entries_touched : Nat
  errors : Nat
  files_deleted : Nat
  files_written : Nat
  upload_files_written : Nat
deriving DecidableEq, Repr

/-- The all-zero statistics dictionary a fresh synchronizer starts with. -/
def Stats.zero : Stats :=
  { bytes_written := 0, copy_errors := 0, dirs_created := 0, dirs_deleted := 0
    download_files_written := 0, entries_seen := 0, entries_touched := 0
    errors := 0, files_deleted := 0, files_written := 0
    upload_files_written := 0 }

/-- One backend I/O call performed by a synchronizer action.  Calls that only
touch in-memory metadata (`DirMetadata` construction) or the terminal are not
effects. -/
inductive Eff where
  | openWritable
  | openReadable
  | copyToFile
  | writeFile
  | setMtime
  | setSyncInfo
  | removeFile
  | removeSyncInfo
  | rmdir
  | mkdir
  | cwd (dir : String)
  | pushMeta
  | popMeta
  | flushMeta
deriving DecidableEq, Repr

/-- The read-only / dry-run flags of a target (spec section 3, `Target`). -/
structure TargetFlags where
  readonly : Bool
  dry_run : Bool
deriving DecidableEq, Repr

/-- The fragment of `BaseSynchronizer.run` that configures the targets
(src/ftpsync/synchronizers.py lines 199-203): with `dry_run` set, both
targets are forced into read-only dry-run mode; otherwise they are left
untouched. -/
def runSetup (dry_run : Bool) (l r : TargetFlags) : TargetFlags × TargetFlags :=
  if dry_run then
    ({ l with readonly := true, dry_run := true },
     { r with readonly := true, dry_run := true })
  else (l, r)

/-- `BaseSynchronizer._copy_file` (src/ftpsync/synchronizers.py lines
254-333).  Parameters mirror the branch conditions: `ftp_to_file` selects the
`FTPTarget`-source special case; `openRes`, `transferRes` and `metaRes` are
the outcomes (`none` = success) of opening the stream, transferring the bytes
(`copy_to_file` / `write_file`) and updating mtime/sync-info afterwards.
Returns the updated statistics, the backend calls performed, and the
uncaught exception, if any. -/
def copyFile (dry_run ignore_copy_errors dest_readonly is_upload ftp_to_file : Bool)
    (openRes transferRes metaRes : Option String) (st : Stats) :
    Stats × List Eff × Option String :=
  let st := { st with
    files_written := st.files_written + 1
    entries_touched := st.entries_touched + 1 }
  let st :=
    if is_upload then { st with upload_files_written := st.upload_files_written + 1 }
    else { st with download_files_written := st.download_files_written + 1 }
  if dry_run then (st, [], none)
  else if dest_readonly then (st, [], some "target is read-only")
  else
    let openEff := if ftp_to_file then Eff.openWritable else Eff.openReadable
    match openRes with
    | some e =>
      let st := { st with
        errors := st.errors + 1
        copy_errors := st.copy_errors + 1 }
      if ignore_copy_errors then (st, [openEff], none) else (st, [openEff], some e)
    | none =>
      let transferEff := if ftp_to_file then Eff.copyToFile else Eff.writeFile
      match transferRes with
      | some e => (st, [openEff, transferEff], some e)
      | none =>
        match metaRes with
        | some e => (st, [openEff, transferEff], some e)
        | none => (st, [openEff, transferEff, Eff.setMtime, Eff.setSyncInfo], none)

/-- `BaseSynchronizer._remove_file` (src/ftpsync/synchronizers.py lines
375-386). -/
def removeFileAction (dry_run target_readonly : Bool) (st : Stats) :
    Stats × List Eff × Option String :=
  let st := { st with
    entries_touched := st.entries_touched + 1
    files_deleted := st.files_deleted + 1 }
  if dry_run then (st, [], none)
  else if target_readonly then (st, [], some "target is read-only")
  else (st, [Eff.removeFile, Eff.removeSyncInfo], none)

/-- `BaseSynchronizer._remove_dir` (src/ftpsync/synchronizers.py lines
388-398). -/
def removeDirAction (dry_run target_readonly : Bool) (st : Stats) :
    Stats × List Eff × Option String :=
  let st := { st with
    entries_touched := st.entries_touched + 1
    dirs_deleted := st.dirs_deleted + 1 }
  if dry_run then (st, [], none)
  else if target_readonly then (st, [], some "target is read-only")
  else (st, [Eff.rmdir, Eff.removeSyncInfo], none)

/-- A directory tree on the source target, as traversed by
`_copy_recursive` via `src.get_dir()`. -/
inductive FsNode where
  | file (name : String) (size : Int) (mtime : ℚ)
  | dir (name : String) (children : List FsNode)

/-- Backend behaviour oracle: per file name, the outcome of the three
fallible steps of `_copy_file` (`none` = success). -/
structure Backend where
  openErr : String → Option String
  transferErr : String → Option String
  metaErr : String → Option String

mutual

/-- `BaseSynchronizer._copy_recursive` (src/ftpsync/synchronizers.py lines
335-373) for a directory node, falling back to `_copy_file` for file nodes
as the loop over `src.get_dir()` does.  In dry-run mode the statistics are
bumped and the function returns before any backend call. -/
def copyRecursive (b : Backend)
    (dry_run ignore_copy_errors dest_readonly is_upload ftp_to_file : Bool) :
    FsNode → Stats → Stats × List Eff × Option String
  | FsNode.file name _ _, st =>
    copyFile dry_run ignore_copy_errors dest_readonly is_upload ftp_to_file
      (b.openErr name) (b.transferErr name) (b.metaErr name) st
  | FsNode.dir name children, st =>
    let st := { st with
      entries_touched := st.entries_touched + 1
      dirs_created := st.dirs_created + 1 }
    if dry_run then (st, [], none)
    else if dest_readonly then (st, [], some "target is read-only")
    else
      let pre : List Eff :=
        [Eff.setSyncInfo, Eff.pushMeta, Eff.pushMeta,
         Eff.cwd name, Eff.mkdir, Eff.cwd name]
      match copyChildren b dry_run ignore_copy_errors dest_readonly is_upload
          ftp_to_file children st with
      | (st2, effs, some e) => (st2, pre ++ effs, some e)
      | (st2, effs, none) =>
        (st2,
         pre ++ effs ++
           [Eff.flushMeta, Eff.flushMeta, Eff.cwd "..", Eff.cwd "..",
            Eff.popMeta, Eff.popMeta],
         none)

/-- The loop body of `_copy_recursive` over `src.get_dir()`: each child bumps
`entries_seen` and is copied recursively; an uncaught exception stops the
loop. -/
def copyChildren (b : Backend)
    (dry_run ignore_copy_errors dest_readonly is_upload ftp_to_file : Bool) :
    List FsNode → Stats → Stats × List Eff × Option String
  | [], st => (st, [], none)
  | c :: rest, st =>
    let st := { st with entries_seen := st.entries_seen + 1 }
    match copyRecursive b dry_run ignore_copy_errors dest_readonly is_upload
        ftp_to_file c st with
    | (st2, effs, some e) => (st2, effs, some e)
    | (st2, effs, none) =>
      match copyChildren b dry_run ignore_copy_errors dest_readonly is_upload
          ftp_to_file rest st2 with
      | (st3, effs2, err) => (st3, effs ++ effs2, err)

end

/-- Claim C3: with `dry_run` set, `run` forces both targets into read-only
dry-run mode, and each mutating action (`_copy_file`, `_copy_recursive`,
`_remove_file`, `_remove_dir`) performs no backend call and raises nothing,
while still bumping its statistics counters (`files_written`,
`entries_touched`, `upload_files_written` / `download_files_written`,
`dirs_created`, `files_deleted`, `dirs_deleted`) as if it had run. -/
theorem dry_run_frame (l r : TargetFlags)
    (ice ro upload ftpf : Bool) (openRes transferRes metaRes : Option String)
    (b : Backend) (name : String) (children : List FsNode) (st : Stats) :
    runSetup true l r =
      ({ l with readonly := true, dry_run := true },
       { r with readonly := true, dry_run := true })
    ∧ copyFile true ice ro upload ftpf openRes transferRes metaRes st =
        (if upload then
          { st with
            files_written := st.files_written + 1
            entries_touched := st.entries_touched + 1
            upload_files_written := st.upload_files_written + 1 }
         else
          { st with
            files_written := st.files_written + 1
            entries_touched := st.entries_touched + 1
            download_files_written := st.download_files_written + 1 },
         [], none)
    ∧ copyRecursive b true ice ro upload ftpf (FsNode.dir name children) st =
        ({ st with
            entries_touched := st.entries_touched + 1
            dirs_created := st.dirs_created + 1 },
         [], none)
    ∧ removeFileAction true ro st =
        ({ st with
            entries_touched := st.entries_touched + 1
            files_deleted := st.files_deleted + 1 },
         [], none)
    ∧ removeDirAction true ro st =
        ({ st with
            entries_touched := st.entries_touched + 1
            dirs_deleted := st.dirs_deleted + 1 },
         [], none) := by
  refine ⟨by simp [runSetup], ?_, ?_, by simp [removeFileAction], by simp [removeDirAction]⟩
  · cases upload <;> simp [copyFile]
  · simp [copyRecursive]

/-- Modelled from the spec: `FileEntry.EPS_TIME` of `ftpsync/resources.py`
(not under `src/`), the small default mtime comparison tolerance
("defaults to a small constant (e.g. 2 s)", spec section 4.3). -/
def EPS_TIME : ℚ := 2

/-- The options bag fields that the synchronizer constructor and the handlers
modelled here consult.  `ignore_copy_errors` is listed to show that the
constructor ignores it. -/
structure SyncOptions where
  verbose : Option Nat
  dry_run : Option Bool
  ignore_copy_errors : Option Bool
  force : Option Bool
  delete : Option Bool
  resolve : Option String
deriving DecidableEq, Repr

/-- The synchronizer attributes assigned by `BaseSynchronizer.__init__`
(src/ftpsync/synchronizers.py lines 98-117) that matter here. -/
structure SyncConfig where
  verbose : Nat
  dry_run : Bool
  ignore_copy_errors : Bool
  mtime_compare_eps : ℚ
deriving DecidableEq, Repr

/-- `BaseSynchronizer.__init__` (src/ftpsync/synchronizers.py lines 98-117):
`verbose` and `dry_run` come from the options bag with defaults 3 and False,
`ignore_copy_errors` is hard-coded to `True`, and `mtime_compare_eps` starts
at `FileEntry.EPS_TIME`. -/
def initBaseSynchronizer (opts : SyncOptions) : SyncConfig :=
  { verbose := opts.verbose.getD 3
    dry_run := opts.dry_run.getD false
    ignore_copy_errors := true
    mtime_compare_eps := EPS_TIME }

/-- Claim C10: outside dry-run, `ignore_copy_errors` is hard-coded `True` by
the constructor for every options bag; in `_copy_file` only a failure while
opening the source or destination stream bumps `errors` and `copy_errors` and
is suppressed (no exception escapes), while a failure during the byte
transfer or during the mtime/sync-info update propagates out of `_copy_file`
without touching `copy_errors`. -/
theorem copy_error_containment (opts : SyncOptions)
    (upload ftpf : Bool) (e : String) (transferRes metaRes : Option String)
    (st : Stats) :
    let stTouched :=
      if upload then
        { st with
          files_written := st.files_written + 1
          entries_touched := st.entries_touched + 1
          upload_files_written := st.upload_files_written + 1 }
      else
        { st with
          files_written := st.files_written + 1
          entries_touched := st.entries_touched + 1
          download_files_written := st.download_files_written + 1 }
    let openEff := if ftpf then Eff.openWritable else Eff.openReadable
    let transferEff := if ftpf then Eff.copyToFile else Eff.writeFile
    (initBaseSynchronizer opts).ignore_copy_errors = true
    ∧ copyFile false true false upload ftpf (some e) transferRes metaRes st =
        ({ stTouched with
            errors := stTouched.errors + 1
            copy_errors := stTouched.copy_errors + 1 },
         [openEff], none)
    ∧ copyFile false true false upload ftpf none (some e) metaRes st =
        (stTouched, [openEff, transferEff], some e)
    ∧ copyFile false true false upload ftpf none none (some e) st =
        (stTouched, [openEff, transferEff], some e) := by
  refine ⟨rfl, ?_, ?_, ?_⟩ <;> cases upload <;> cases ftpf <;> simp [copyFile]

/-! ## Classification (modelled) and the Upload mode policy -/

/-- One record of the per-directory metadata `files` map:
`{ s: size, m: mtime, u: upload_time }` (spec section 3).  `s` and `u` are
optional because the code reads them with `meta.get`. -/
structure MetaRec where
  s : Option Int
  m : ℚ
  u : Option ℚ
deriving DecidableEq, Repr

/-- A listed entry as seen by the classifier: directory flag, size, mtime. -/
structure ListedEntry where
  is_dir : Bool
  size : Int
  mtime : ℚ
deriving DecidableEq, Repr

/-- Modelled from the spec: the per-side classification rules of section 4.4
(`ftpsync/resources.py` is not under `src/`).  Absent entry without a meta
record is `missing`, absent with a record is `deleted`, present without a
record is `new`, present and matching the record within `mtime_eps` is
`unmodified`, otherwise `modified`; directories fall back to `existing`. -/
def classifySide (eps : ℚ) (entry : Option ListedEntry) (rec : Option MetaRec) :
    Classification :=
  match entry, rec with
  | none, none => .missing
  | none, some _ => .deleted
  | some e, none => if e.is_dir then .existing else .new
  | some e, some r =>
    if e.is_dir then .existing
    else if eps_compare e.mtime r.m eps = 0 ∧ some e.size = r.s then .unmodified
    else .modified

/-- `UploadSynchronizer.re_classify_pair` (src/ftpsync/synchronizers.py lines
1042-1071).  A `(missing, new)` or `(missing, existing)` pair (whose
operation the code asserts to be `copy_remote`) is overridden to
`delete_remote`; with `force`, the four file-pair classifications
`(new, new)`, `(modified, modified)`, `(unmodified, modified)`,
`(existing, existing)` and any `(unmodified, deleted)` pair are overridden to
`copy_local`.  `override_operation` (from `ftpsync/resources.py`, not under
`src/`) is modelled from the spec as replacing the pair's operation; the
failed `assert` becomes `Except.error`. -/
def uploadReclassify (force : Bool) (p : EntryPairState) :
    Except String EntryPairState :=
  let is_file := !p.is_dir
  let c := (p.local_classification, p.remote_classification)
  let step1 : Except String EntryPairState :=
    if c = (.missing, .new) then
      if p.operation = .copy_remote then
        Except.ok { p with operation := .delete_remote }
      else Except.error "assertion failed"
    else if c = (.missing, .existing) then
      if p.operation = .copy_remote then
        Except.ok { p with operation := .delete_remote }
      else Except.error "assertion failed"
    else Except.ok p
  match step1 with
  | Except.error e => Except.error e
  | Except.ok p1 =>
    if force then
      if is_file = true ∧ c = (.new, .new) then
        Except.ok { p1 with operation := .copy_local }
      else if is_file = true ∧ c = (.modified, .modified) then
        Except.ok { p1 with operation := .copy_local }
      else if is_file = true ∧ c = (.unmodified, .modified) then
        Except.ok { p1 with operation := .copy_local }
      else if is_file = true ∧ c = (.existing, .existing) then
        Except.ok { p1 with operation := .copy_local }
      else if c = (.unmodified, .deleted) then
        Except.ok { p1 with operation := .copy_local }
      else Except.ok p1
    else Except.ok p1

/-- `UploadSynchronizer.on_delete_remote` (src/ftpsync/synchronizers.py lines
1162-1167): without the `delete` option the pair is only logged as skipped and
nothing happens; with it, `BiDirSynchronizer.on_delete_remote` (lines 901-907)
removes the remote directory or file. -/
def uploadOnDeleteRemote (deleteOpt dry_run remote_readonly is_dir : Bool)
    (st : Stats) : Stats × List Eff × Option String :=
  if deleteOpt = false then (st, [], none)
  else if is_dir then removeDirAction dry_run remote_readonly st
  else removeFileAction dry_run remote_readonly st

/-- Claim C4: in Upload mode a local side classified `missing` (which, by the
classification rules, makes the remote side `new` or `existing`) gets its
operation overridden to `delete_remote`; `on_delete_remote` then deletes the
remote side if and only if the `delete` option is set — without it, it
performs no backend call at all. -/
theorem upload_missing_local_deletes_remote (eps : ℚ) (re : ListedEntry)
    (force : Bool) (p : EntryPairState)
    (hl : p.local_classification = Classification.missing)
    (hr : p.remote_classification = classifySide eps (some re) none)
    (hop : p.operation = Operation.copy_remote)
    (dry ro : Bool) (st : Stats) :
    classifySide eps none none = Classification.missing
    ∧ uploadReclassify force p =
        Except.ok { p with operation := Operation.delete_remote }
    ∧ uploadOnDeleteRemote false dry ro p.is_dir st = (st, [], none)
    ∧ (p.is_dir = false → uploadOnDeleteRemote true false false p.is_dir st =
        ({ st with
            entries_touched := st.entries_touched + 1
            files_deleted := st.files_deleted + 1 },
         [Eff.removeFile, Eff.removeSyncInfo], none))
    ∧ (p.is_dir = true → uploadOnDeleteRemote true false false p.is_dir st =
        ({ st with
            entries_touched := st.entries_touched + 1
            dirs_deleted := st.dirs_deleted + 1 },
         [Eff.rmdir, Eff.removeSyncInfo], none)) := by
  refine ⟨rfl, ?_, by simp [uploadOnDeleteRemote], ?_, ?_⟩
  · have hr' : p.remote_classification =
        (if re.is_dir then Classification.existing else Classification.new) := hr
    cases hre : re.is_dir <;> rw [hre] at hr' <;> simp at hr' <;>
      cases force <;> simp [uploadReclassify, hl, hr', hop]
  · intro hdir
    simp [uploadOnDeleteRemote, hdir, removeFileAction]
  · intro hdir
    simp [uploadOnDeleteRemote, hdir, removeDirAction]

/-- Concrete run of `upload_missing_local_deletes_remote`: a file pair that
only exists remotely and has no metadata record is re-labelled
`delete_remote`. -/
theorem upload_missing_local_deletes_remote_witness :
    uploadReclassify false
        { is_dir := false
          local_classification := Classification.missing
          remote_classification := Classification.new
          operation := Operation.copy_remote
          local_mtime := 0
          remote_mtime := 7
          local_size := 0
          remote_size := 3 } =
      Except.ok
        { is_dir := false
          local_classification := Classification.missing
          remote_classification := Classification.new
          operation := Operation.delete_remote
          local_mtime := 0
          remote_mtime := 7
          local_size := 0
          remote_size := 3 } :=
  (upload_missing_local_deletes_remote 2
      { is_dir := false, size := 3, mtime := 7 } false
      { is_dir := false
        local_classification := Classification.missing
        remote_classification := Classification.new
        operation := Operation.copy_remote
        local_mtime := 0
        remote_mtime := 7
        local_size := 0
        remote_size := 3 } rfl rfl rfl false false Stats.zero).2.1

/-- Claim C5 counterexample: a file pair classified `(deleted, modified)` —
the two side classifications disagree — keeps operation `conflict` under
Upload mode with `--force`; it is not overridden to `copy_local`. -/
theorem upload_force_disagreement_counterexample :
    uploadReclassify true
        { is_dir := false
          local_classification := Classification.deleted
          remote_classification := Classification.modified
          operation := Operation.conflict
          local_mtime := 1
          remote_mtime := 2
          local_size := 3
          remote_size := 4 } =
      Except.ok
        { is_dir := false
          local_classification := Classification.deleted
          remote_classification := Classification.modified
          operation := Operation.conflict
          local_mtime := 1
          remote_mtime := 2
          local_size := 3
          remote_size := 4 }
    ∧ Classification.deleted ≠ Classification.modified
    ∧ Operation.conflict ≠ Operation.copy_local := by
  refine ⟨?_, by decide, by decide⟩
  simp [uploadReclassify]

/-- Claim C5 (amended): in Upload mode, `re_classify_pair` with `--force`
overrides to `copy_local` the file pairs classified `(new, new)`,
`(modified, modified)`, `(unmodified, modified)` or `(existing, existing)`
and any pair classified `(unmodified, deleted)`; pairs classified
`(missing, new)` or `(missing, existing)` — also disagreeing tuples — are
instead overridden to `delete_remote` (the missing-local rule runs regardless
of `--force`); every pair with any other classification tuple, disagreeing or
not (e.g. `(deleted, modified)`), keeps its previous operation. -/
theorem upload_force_copy_local (p : EntryPairState) :
    (p.is_dir = false →
      ((p.local_classification, p.remote_classification) =
          (Classification.new, Classification.new)
        ∨ (p.local_classification, p.remote_classification) =
          (Classification.modified, Classification.modified)
        ∨ (p.local_classification, p.remote_classification) =
          (Classification.unmodified, Classification.modified)
        ∨ (p.local_classification, p.remote_classification) =
          (Classification.existing, Classification.existing)) →
      uploadReclassify true p =
        Except.ok { p with operation := Operation.copy_local })
    ∧ ((p.local_classification, p.remote_classification) =
        (Classification.unmodified, Classification.deleted) →
      uploadReclassify true p =
        Except.ok { p with operation := Operation.copy_local })
    ∧ (((p.local_classification, p.remote_classification) =
          (Classification.missing, Classification.new)
        ∨ (p.local_classification, p.remote_classification) =
          (Classification.missing, Classification.existing)) →
      p.operation = Operation.copy_remote →
      uploadReclassify true p =
        Except.ok { p with operation := Operation.delete_remote })
    ∧ (¬(p.is_dir = false ∧
          ((p.local_classification, p.remote_classification) =
            (Classification.new, Classification.new)
          ∨ (p.local_classification, p.remote_classification) =
            (Classification.modified, Classification.modified)
          ∨ (p.local_classification, p.remote_classification) =
            (Classification.unmodified, Classification.modified)
          ∨ (p.local_classification, p.remote_classification) =
            (Classification.existing, Classification.existing))) →
      (p.local_classification, p.remote_classification) ≠
        (Classification.unmodified, Classification.deleted) →
      (p.local_classification, p.remote_classification) ≠
        (Classification.missing, Classification.new) →
      (p.local_classification, p.remote_classification) ≠
        (Classification.missing, Classification.existing) →
      uploadReclassify true p = Except.ok p) := by
  refine ⟨?_, ?_, ?_, ?_⟩
  · intro hdir hc
    rcases hc with hc | hc | hc | hc <;>
      rw [Prod.mk.injEq] at hc <;> obtain ⟨h1, h2⟩ := hc <;>
      simp [uploadReclassify, hdir, h1, h2]
  · intro hc
    rw [Prod.mk.injEq] at hc
    obtain ⟨h1, h2⟩ := hc
    simp [uploadReclassify, h1, h2]
  · intro hc hop
    rcases hc with hc | hc <;>
      rw [Prod.mk.injEq] at hc <;> obtain ⟨h1, h2⟩ := hc <;>
      simp [uploadReclassify, h1, h2, hop]
  · intro hnot4 h5 h1 h2
    cases hbd : p.is_dir <;>
      cases hl : p.local_classification <;>
      cases hr : p.remote_classification <;>
      simp_all [uploadReclassify]

/-- Concrete run of `upload_force_copy_local`: a `(modified, modified)` file
pair is forced to `copy_local`. -/
theorem upload_force_copy_local_witness :
    uploadReclassify true
        { is_dir := false
          local_classification := Classification.modified
          remote_classification := Classification.modified
          operation := Operation.conflict
          local_mtime := 1
          remote_mtime := 2
          local_size := 3
          remote_size := 4 } =
      Except.ok
        { is_dir := false
          local_classification := Classification.modified
          remote_classification := Classification.modified
          operation := Operation.copy_local
          local_mtime := 1
          remote_mtime := 2
          local_size := 3
          remote_size := 4 } :=
  (upload_force_copy_local
      { is_dir := false
        local_classification := Classification.modified
        remote_classification := Classification.modified
        operation := Operation.conflict
        local_mtime := 1
        remote_mtime := 2
        local_size := 3
        remote_size := 4 }).1 rfl (Or.inr (Or.inl rfl))

/-! ## Name filtering -/

/-- src/ftpsync/synchronizers.py line 26. -/
def CONFIG_FILE_NAME : String := "pyftpsync.yaml"

/-- Modelled from the spec: `DirMetadata.META_FILE_NAME` of
`ftpsync/metadata.py` (not under `src/`); the metadata file is
"hidden-named, e.g. `.pyftpsync-meta.json`" (spec section 6). -/
def META_FILE_NAME : String := ".pyftpsync-meta.json"

/-- Modelled from the spec: `DirMetadata.LOCK_FILE_NAME` of
`ftpsync/metadata.py` (not under `src/`), the root lock file. -/
def LOCK_FILE_NAME : String := ".pyftpsync-lock.json"

/-- src/ftpsync/synchronizers.py line 31. -/
def ALWAYS_OMIT : List String := [CONFIG_FILE_NAME, META_FILE_NAME, LOCK_FILE_NAME]

/-- `match_path` (src/ftpsync/synchronizers.py lines 62-87).  `fnm` abstracts
`fnmatch.fnmatch` from the Python standard library.  Names in `ALWAYS_OMIT`
are rejected outright; the include patterns are consulted only for file
entries; the exclude patterns can veto any accepted entry. -/
def match_path (fnm : String → String → Bool) (is_file : Bool) (name : String)
    (matchPats excludePats : List String) : Bool :=
  if ALWAYS_OMIT.contains name then false
  else
    let ok :=
      if is_file && !matchPats.isEmpty then
        matchPats.any (fun pat => fnm name pat)
      else true
    if ok && !excludePats.isEmpty then
      !(excludePats.any (fun pat => fnm name pat))
    else ok

/-- Outcome of step 4 of `_sync_dir` for one pair: either the operation
handler named by the pair's operation runs, or the pair is diverted to
`on_mismatch`. -/
inductive DispatchResult where
  | opHandler (op : Operation)
  | mismatch
deriving DecidableEq, Repr

/-- The filter decision of `_sync_dir` step 4 (src/ftpsync/synchronizers.py
lines 603-625): pairs whose representative entry fails `_match` are sent to
`on_mismatch` instead of an operation handler (the `re_classify_pair` hook
result is `True` here, as in `BaseSynchronizer`). -/
def dispatchPair (fnm : String → String → Bool)
    (matchPats excludePats : List String) (is_file : Bool) (name : String)
    (op : Operation) : DispatchResult :=
  if match_path fnm is_file name matchPats excludePats then
    DispatchResult.opHandler op
  else DispatchResult.mismatch

/-- Claim C6: an entry named like the configuration file, the metadata file
or the lock file fails `match_path` for every `match` / `exclude` option
value and is therefore never dispatched to an operation handler; moreover the
include patterns (`match`) are ignored for directory entries. -/
theorem always_omit_filter (fnm : String → String → Bool)
    (m1 m2 excl : List String) (is_file : Bool) (name : String)
    (op : Operation) :
    (name = CONFIG_FILE_NAME ∨ name = META_FILE_NAME ∨ name = LOCK_FILE_NAME →
      match_path fnm is_file name m1 excl = false ∧
      dispatchPair fnm m1 excl is_file name op = DispatchResult.mismatch)
    ∧ match_path fnm false name m1 excl = match_path fnm false name m2 excl := by
  constructor
  · intro h
    have hmem : name ∈ ALWAYS_OMIT := by
      rcases h with h | h | h <;> simp [ALWAYS_OMIT, h]
    simp [match_path, dispatchPair, hmem]
  · simp [match_path]

/-- Concrete run of `always_omit_filter`: the metadata file name is filtered
out and diverted to `on_mismatch` even with empty patterns. -/
theorem always_omit_filter_witness :
    match_path (fun _ _ => true) true META_FILE_NAME [] [] = false ∧
    dispatchPair (fun _ _ => true) [] [] true META_FILE_NAME Operation.equal =
      DispatchResult.mismatch :=
  (always_omit_filter (fun _ _ => true) [] [] [] true META_FILE_NAME
    Operation.equal).1 (Or.inr (Or.inl rfl))

/-! ## FTP target: LIST fallback tolerance and transfer response checks -/

/-- The two `mtime_compare_eps` slots involved in the LIST fallback: the one
on the `FTPTarget` and the one on its synchronizer. -/
structure FtpEpsState where
  target_eps : ℚ
  sync_eps : ℚ
deriving DecidableEq, Repr

/-- The literal `60.01` written by `_addline_listWrapper`
(src/ftpsync/ftp_target.py line 675). -/
def LIST_FALLBACK_EPS : ℚ := 6001 / 100

/-- The tolerance update performed by `FTPTarget.get_dir._addline_listWrapper`
when `get_dir` has fallen back from MLSD to LIST (src/ftpsync/ftp_target.py
lines 674-676): `self.mtime_compare_eps = 60.01` followed by
`self.synchronizer.mtime_compare_eps = self.mtime_compare_eps`. -/
def applyListFallbackEps (s : FtpEpsState) : FtpEpsState :=
  let s1 := { s with target_eps := LIST_FALLBACK_EPS }
  { s1 with sync_eps := s1.target_eps }

/-- Claim C7 counterexample: the LIST fallback sets the tolerance to `60.01`
seconds, which is *not* "at least 61 seconds". -/
theorem list_fallback_eps_below_61 :
    (applyListFallbackEps ⟨EPS_TIME, EPS_TIME⟩).target_eps = 6001 / 100
    ∧ ¬ ((61 : ℚ) ≤ (applyListFallbackEps ⟨EPS_TIME, EPS_TIME⟩).target_eps) :=
  ⟨rfl, by norm_num [applyListFallbackEps, LIST_FALLBACK_EPS]⟩

/-- Claim C7 (amended): when `FTPTarget.get_dir` falls back from MLSD to
LIST, it widens `mtime_compare_eps` on the target to `60.01` seconds (enough
to absorb the minute-precision truncation of LIST timestamps, though less
than 61 seconds) and propagates exactly that value to the synchronizer's
`mtime_compare_eps`. -/
theorem list_fallback_eps_widens (s : FtpEpsState) :
    (applyListFallbackEps s).target_eps = LIST_FALLBACK_EPS
    ∧ (applyListFallbackEps s).sync_eps = (applyListFallbackEps s).target_eps
    ∧ (60 : ℚ) < LIST_FALLBACK_EPS
    ∧ EPS_TIME < LIST_FALLBACK_EPS :=
  ⟨rfl, rfl, by norm_num [LIST_FALLBACK_EPS],
    by norm_num [LIST_FALLBACK_EPS, EPS_TIME]⟩

/-- The success literal that `FTPTarget.write_file` and
`FTPTarget.copy_to_file` compare the `ftplib` transfer reply against
(src/ftpsync/ftp_target.py lines 791 and 822). -/
def TRANSFER_SUCCESS_LITERAL : String := "226 Transfer complete."

/-- The reply check of `FTPTarget.write_file` after `STOR`
(src/ftpsync/ftp_target.py lines 789-792): any reply other than the literal
raises. -/
def writeFileCheckResponse (resp : String) : Except String Unit :=
  if resp = TRANSFER_SUCCESS_LITERAL then Except.ok ()
  else Except.error "Unexpected response code while uploading"

/-- The reply check of `FTPTarget.copy_to_file` after `RETR`
(src/ftpsync/ftp_target.py lines 820-823). -/
def copyToFileCheckResponse (resp : String) : Except String Unit :=
  if resp = TRANSFER_SUCCESS_LITERAL then Except.ok ()
  else Except.error "Unexpected response code while downloading"

/-- Modelled from the spec: a 2xx FTP reply, i.e. one whose status line
starts with the digit 2 ("Servers may return equivalent 2xx responses with
different wording", spec section 9). -/
def is2xxReply (resp : String) : Bool :=
  match resp.data with
  | [] => false
  | c :: _ => c = '2'

/-- Claim C8 counterexample: the reply `250 Requested file action okay,
completed.` is a 2xx success reply, yet both transfer checks raise on it —
the code matches the literal response text, not the 2xx class. -/
theorem transfer_check_rejects_2xx :
    is2xxReply "250 Requested file action okay, completed." = true
    ∧ writeFileCheckResponse "250 Requested file action okay, completed." =
        Except.error "Unexpected response code while uploading"
    ∧ copyToFileCheckResponse "250 Requested file action okay, completed." =
        Except.error "Unexpected response code while downloading" := by
  refine ⟨by decide, ?_, ?_⟩ <;>
    simp [writeFileCheckResponse, copyToFileCheckResponse,
      TRANSFER_SUCCESS_LITERAL]

/-- Claim C8 (amended): `FTPTarget.write_file` and `FTPTarget.copy_to_file`
raise if and only if the transfer reply differs from the exact literal
`226 Transfer complete.`; they do not accept the 2xx class. -/
theorem transfer_check_literal_only (resp : String) :
    (writeFileCheckResponse resp = Except.ok () ↔
      resp = TRANSFER_SUCCESS_LITERAL)
    ∧ (copyToFileCheckResponse resp = Except.ok () ↔
      resp = TRANSFER_SUCCESS_LITERAL) := by
  by_cases h : resp = TRANSFER_SUCCESS_LITERAL <;>
    simp [writeFileCheckResponse, copyToFileCheckResponse, h]

/-! ## Conflict resolution strategy selection -/

/-- Modelled from the spec: `EntryPair.is_same_time` of
`ftpsync/resources.py` (not under `src/`): the two sides' mtimes are equal
within `mtime_eps`. -/
def is_same_time (eps lm rm : ℚ) : Bool :=
  decide (eps_compare lm rm eps = 0)

/-- Strategy source of `BiDirSynchronizer._interactive_resolve`
(src/ftpsync/synchronizers.py lines 793-798): a sticky `resolve_all` choice
wins, otherwise the configured `resolve` option with default `skip`. -/
def resolveConfigured (resolve_all optResolve : Option String) : String :=
  match resolve_all with
  | some r => r
  | none => optResolve.getD "skip"

/-- The degeneration step of `BiDirSynchronizer._interactive_resolve`
(src/ftpsync/synchronizers.py lines 800-803): `new` / `old` cannot be applied
to a pair with identical times, so the strategy is replaced by `ask` when
running as a script and by `skip` otherwise. -/
def degradeResolve (resolve : String) (same_time is_script : Bool) : String :=
  if (resolve = "new" ∨ resolve = "old") ∧ same_time = true then
    if is_script then "ask" else "skip"
  else resolve

/-- Result of the deterministic prefix of `_interactive_resolve`: either a
final resolution is returned (src line 808-810) or control falls through to
the interactive prompt loop. -/
inductive ResolveStep where
  | done (r : String)
  | prompt
deriving DecidableEq, Repr

/-- The deterministic prefix of `BiDirSynchronizer._interactive_resolve`
(src/ftpsync/synchronizers.py lines 791-812): pick the strategy, degrade
`new`/`old` on same-time pairs, return it when it is one of the
non-interactive values, otherwise enter the prompt loop. -/
def interactiveResolveBiDir (resolve_all optResolve : Option String)
    (is_script same_time : Bool) : ResolveStep :=
  let r := degradeResolve (resolveConfigured resolve_all optResolve)
    same_time is_script
  if r = "local" ∨ r = "remote" ∨ r = "old" ∨ r = "new" ∨ r = "skip" then
    ResolveStep.done r
  else ResolveStep.prompt

/-- Claim C9: when the configured strategy is `old` or `new` and the two
sides' mtimes are equal within `mtime_eps`, the bidirectional resolver does
not apply the strategy: it degenerates to `ask` (entering the interactive
prompt) when running as a script, and returns `skip` otherwise. -/
theorem old_new_degenerates (ra optR : Option String) (r : String)
    (is_script : Bool) (eps lm rm : ℚ)
    (hr : r = "old" ∨ r = "new")
    (hconf : resolveConfigured ra optR = r)
    (hsame : |lm - rm| ≤ eps) :
    is_same_time eps lm rm = true
    ∧ degradeResolve (resolveConfigured ra optR) (is_same_time eps lm rm)
        is_script = (if is_script then "ask" else "skip")
    ∧ interactiveResolveBiDir ra optR is_script (is_same_time eps lm rm) =
        (if is_script then ResolveStep.prompt else ResolveStep.done "skip") := by
  have hst : is_same_time eps lm rm = true := by
    simp [is_same_time, eps_compare, hsame]
  refine ⟨hst, ?_, ?_⟩
  · rcases hr with h | h <;> simp [degradeResolve, hconf, h, hst]
  · rcases hr with h | h <;> cases is_script <;>
      simp [interactiveResolveBiDir, degradeResolve, hconf, h, hst]

/-- Concrete run of `old_new_degenerates`: strategy `old`, identical mtimes,
not a script: the resolver returns `skip`. -/
theorem old_new_degenerates_witness :
    interactiveResolveBiDir none (some "old") false (is_same_time 2 10 10) =
      ResolveStep.done "skip" :=
  (old_new_degenerates none (some "old") "old" false 2 10 10 (Or.inl rfl) rfl
    (by simp)).2.2

/-! ## The `get_dir` metadata merge (FTP and SFTP targets) -/

/-- An entry of the `entry_map` built by `get_dir` before the metadata merge:
name plus the size and mtime reported by the server. -/
structure ListingEntry where
  name : String
  size : Int
  mtime : ℚ
deriving DecidableEq, Repr

/-- The discard test of the merge loop (src/ftpsync/ftp_target.py lines
726-743 and src/ftpsync/sftp_target.py lines 464-481): the record is
discarded when the recorded size `meta.get("s")` differs from the reported
size (a missing `s` compares unequal, as in Python), or when the reported
mtime exceeds the stored upload time `meta.get("u", 0)` by more than
`mtime_compare_eps`. -/
def discardMeta (eps : ℚ) (e : ListingEntry) (r : MetaRec) : Bool :=
  (match r.s with
   | none => true
   | some s => decide (e.size ≠ s)) || decide (e.mtime - r.u.getD 0 > eps)

/-- The in-place update `entry_map[n].mtime = meta["m"]` applied to the entry
list: only the entry named `n` gets its mtime replaced. -/
def metaUpd (n : String) (m' : ℚ) (e : ListingEntry) : ListingEntry :=
  if e.name = n then { e with mtime := m' } else e

/-- The `for n in meta_files` merge loop of `FTPTarget.get_dir`
(src/ftpsync/ftp_target.py lines 713-751) and `SFTPTarget._get_dir_impl`
(src/ftpsync/sftp_target.py lines 451-489): returns the updated entry list
together with the `missing` list of record names to drop. -/
def applyMetaLoop (eps : ℚ) :
    List (String × MetaRec) → List ListingEntry →
      List ListingEntry × List String
  | [], es => (es, [])
  | (n, r) :: rest, es =>
    match es.find? (fun e => e.name == n) with
    | some e =>
      if discardMeta eps e r then
        let p := applyMetaLoop eps rest es
        (p.1, n :: p.2)
      else
        applyMetaLoop eps rest (es.map (metaUpd n r.m))
    | none =>
      let p := applyMetaLoop eps rest es
      (p.1, n :: p.2)

/-- The full metadata merge of `get_dir`: run the loop, then drop every
`missing` name from the metadata (`self.cur_dir_meta.remove(n)`;
`DirMetadata.remove` lives in `ftpsync/metadata.py`, not under `src/`, and is
modelled from the spec as removing the file's record). -/
def getDirMergeMeta (eps : ℚ) (entries : List ListingEntry)
    (metaFiles : List (String × MetaRec)) :
    List ListingEntry × List (String × MetaRec) :=
  let p := applyMetaLoop eps metaFiles entries
  (p.1, metaFiles.filter (fun q => !(p.2.contains q.1)))

/-- The per-entry merge rule as the claim states it: an entry without a
record keeps its reported attributes; one whose record fails the discard test
keeps the reported mtime; otherwise the stored `m` replaces the mtime. -/
def mergeEntrySpec (eps : ℚ) (metaFiles : List (String × MetaRec))
    (e : ListingEntry) : ListingEntry :=
  match metaFiles.find? (fun q => q.1 == e.name) with
  | none => e
  | some q => if discardMeta eps e q.2 then e else { e with mtime := q.2.m }

/-- The record retention rule as the claim states it: a record survives iff
its file is still listed and the discard test does not fire. -/
def keepMetaSpec (eps : ℚ) (entries : List ListingEntry)
    (q : String × MetaRec) : Bool :=
  match entries.find? (fun e => e.name == q.1) with
  | none => false
  | some e => !(discardMeta eps e q.2)

theorem metaUpd_name (n : String) (m' : ℚ) (e : ListingEntry) :
    (metaUpd n m' e).name = e.name := by
  unfold metaUpd; split <;> rfl

theorem map_metaUpd_names (n : String) (m' : ℚ) (es : List ListingEntry) :
    (es.map (metaUpd n m')).map (fun e => e.name) = es.map (fun e => e.name) := by
  rw [List.map_map]
  exact List.map_congr_left fun e _ => metaUpd_name n m' e

/-- The merge loop, characterised: under unique listing names and unique
record names it maps every entry through `mergeEntrySpec` and collects in
`missing` exactly the keys of the records that `keepMetaSpec` rejects. -/
theorem applyMetaLoop_spec (eps : ℚ) (mf : List (String × MetaRec)) :
    ∀ es : List ListingEntry,
      (es.map (fun e => e.name)).Nodup →
      (mf.map Prod.fst).Nodup →
      applyMetaLoop eps mf es =
        (es.map (mergeEntrySpec eps mf),
         (mf.filter (fun q => !(keepMetaSpec eps es q))).map Prod.fst) := by
  induction mf with
  | nil =>
    intro es _ _
    refine Prod.ext ?_ rfl
    show es = es.map (mergeEntrySpec eps [])
    calc es = es.map id := (List.map_id es).symm
      _ = es.map (mergeEntrySpec eps []) :=
          List.map_congr_left (fun e _ => rfl)
  | cons hd rest ih =>
    obtain ⟨n, r⟩ := hd
    intro es hes hmf
    have hmf1 : n ∉ rest.map Prod.fst := (List.nodup_cons.mp hmf).1
    have hmf2 : (rest.map Prod.fst).Nodup := (List.nodup_cons.mp hmf).2
    have hrest_none : rest.find? (fun q => q.1 == n) = none := by
      rw [List.find?_eq_none]
      intro q hq
      simp only [beq_iff_eq]
      intro hqn
      exact hmf1 (List.mem_map.mpr ⟨q, hq, hqn⟩)
    cases hfind : es.find? (fun e => e.name == n) with
    | none =>
      have hnone : ∀ e ∈ es, e.name ≠ n := by
        intro e he
        have := List.find?_eq_none.mp hfind e he
        simpa using this
      have hkeep : keepMetaSpec eps es (n, r) = false := by
        simp [keepMetaSpec, hfind]
      have hstep : applyMetaLoop eps ((n, r) :: rest) es =
          ((applyMetaLoop eps rest es).1, n :: (applyMetaLoop eps rest es).2) := by
        simp [applyMetaLoop, hfind]
      rw [hstep, ih es hes hmf2]
      refine Prod.ext ?_ ?_
      · apply List.map_congr_left
        intro e he
        have h1 : ((n, r).1 == e.name) = false := by
          simp [Ne.symm (hnone e he)]
        simp [mergeEntrySpec, List.find?_cons, h1]
      · simp [List.filter_cons, hkeep]
    | some e =>
      have he_mem : e ∈ es := List.mem_of_find?_eq_some hfind
      have he_name : e.name = n := by simpa using List.find?_some hfind
      have huniq : ∀ e' ∈ es, e'.name = n → e' = e := fun e' he' hn' =>
        List.inj_on_of_nodup_map hes he' he_mem (by rw [hn', he_name])
      cases hd2 : discardMeta eps e r with
      | true =>
        have hkeep : keepMetaSpec eps es (n, r) = false := by
          simp [keepMetaSpec, hfind, hd2]
        have hstep : applyMetaLoop eps ((n, r) :: rest) es =
            ((applyMetaLoop eps rest es).1,
             n :: (applyMetaLoop eps rest es).2) := by
          simp [applyMetaLoop, hfind, hd2]
        rw [hstep, ih es hes hmf2]
        refine Prod.ext ?_ ?_
        · apply List.map_congr_left
          intro e' he'
          by_cases hn' : e'.name = n
          · rw [huniq e' he' hn']
            have h1 : (n == e.name) = true := by simp [he_name]
            have h2 : rest.find? (fun q => q.1 == e.name) = none := by
              rw [he_name]; exact hrest_none
            simp [mergeEntrySpec, List.find?_cons, h1, h2, hd2]
          · have h1 : ((n, r).1 == e'.name) = false := by simp [Ne.symm hn']
            simp [mergeEntrySpec, List.find?_cons, h1]
        · simp [List.filter_cons, hkeep]
      | false =>
        have hkeep : keepMetaSpec eps es (n, r) = true := by
          simp [keepMetaSpec, hfind, hd2]
        have hes2 : ((es.map (metaUpd n r.m)).map (fun e => e.name)).Nodup := by
          rw [map_metaUpd_names]; exact hes
        have hstep : applyMetaLoop eps ((n, r) :: rest) es =
            applyMetaLoop eps rest (es.map (metaUpd n r.m)) := by
          simp [applyMetaLoop, hfind, hd2]
        rw [hstep, ih (es.map (metaUpd n r.m)) hes2 hmf2, Prod.mk.injEq]
        refine ⟨?_, ?_⟩
        · rw [List.map_map]
          apply List.map_congr_left
          intro e' he'
          by_cases hn' : e'.name = n
          · rw [huniq e' he' hn']
            have hupd : metaUpd n r.m e = { e with mtime := r.m } := by
              simp [metaUpd, he_name]
            have h2 : rest.find? (fun q => q.1 ==
                ({ e with mtime := r.m } : ListingEntry).name) = none := by
              simpa [he_name] using hrest_none
            have h1 : (n == e.name) = true := by simp [he_name]
            simp [Function.comp, hupd, mergeEntrySpec, List.find?_cons, h1, h2,
              hd2]
          · have hupd : metaUpd n r.m e' = e' := by simp [metaUpd, hn']
            have h1 : ((n, r).1 == e'.name) = false := by simp [Ne.symm hn']
            simp [Function.comp, hupd, mergeEntrySpec, List.find?_cons, h1]
        · have hfilter : List.filter
              (fun q => !(keepMetaSpec eps es q)) ((n, r) :: rest) =
              List.filter (fun q => !(keepMetaSpec eps es q)) rest := by
            simp [List.filter_cons, hkeep]
          rw [hfilter]
          congr 1
          apply List.filter_congr
          intro q hq
          have hqn : q.1 ≠ n := fun h =>
            hmf1 (List.mem_map.mpr ⟨q, hq, h⟩)
          have hpred : ((fun x : ListingEntry => x.name == q.1) ∘
              metaUpd n r.m) = fun e' : ListingEntry => e'.name == q.1 := by
            funext e'
            simp [Function.comp, metaUpd_name]
          have hfind2 : (es.map (metaUpd n r.m)).find?
              (fun x => x.name == q.1) =
              (es.find? (fun e' => e'.name == q.1)).map (metaUpd n r.m) := by
            rw [List.find?_map, hpred]
          cases hf : es.find? (fun e' => e'.name == q.1) with
          | none => simp [keepMetaSpec, hfind2, hf]
          | some e'' =>
            have hname'' : e''.name = q.1 := by
              simpa using List.find?_some hf
            have hupd'' : metaUpd n r.m e'' = e'' := by
              simp [metaUpd, hname'', hqn]
            simp [keepMetaSpec, hfind2, hf, hupd'']

/-- Claim C2: the `get_dir` metadata merge of the FTP and SFTP targets.  With
unique listing names and unique record names: every listed file with a
record either has the record discarded (removed from the metadata, reported
mtime kept) when the recorded size differs or the reported mtime drifts past
the stored upload time by more than `mtime_compare_eps`, or gets its mtime
overwritten with the stored `m`; listed files without a record are untouched;
records whose file is no longer listed are removed. -/
theorem get_dir_meta_merge (eps : ℚ) (entries : List ListingEntry)
    (metaFiles : List (String × MetaRec))
    (hents : (entries.map (fun e => e.name)).Nodup)
    (hmeta : (metaFiles.map Prod.fst).Nodup) :
    getDirMergeMeta eps entries metaFiles =
      (entries.map (mergeEntrySpec eps metaFiles),
       metaFiles.filter (keepMetaSpec eps entries)) := by
  unfold getDirMergeMeta
  rw [applyMetaLoop_spec eps metaFiles entries hents hmeta]
  refine Prod.ext rfl ?_
  apply List.filter_congr
  intro q hq
  by_cases hk : keepMetaSpec eps entries q = true
  · have hnotmem : q.1 ∉ (metaFiles.filter
        (fun q' => !(keepMetaSpec eps entries q'))).map Prod.fst := by
      intro hmem
      obtain ⟨q', hq', hfst⟩ := List.mem_map.mp hmem
      have hq'mem := (List.mem_filter.mp hq').1
      have hq'keep := (List.mem_filter.mp hq').2
      have : q' = q := List.inj_on_of_nodup_map hmeta hq'mem hq hfst
      rw [this, hk] at hq'keep
      simp at hq'keep
    have hcont : ((metaFiles.filter (fun q' => !(keepMetaSpec eps entries
        q'))).map Prod.fst).contains q.1 = false := by
      rw [← Bool.not_eq_true]
      intro hc
      exact hnotmem (List.elem_iff.mp hc)
    show (!(((metaFiles.filter (fun q' => !(keepMetaSpec eps entries
        q'))).map Prod.fst).contains q.1)) = keepMetaSpec eps entries q
    rw [hcont, hk]
    rfl
  · have hk' : keepMetaSpec eps entries q = false := by
      simpa using hk
    have hmem : q.1 ∈ (metaFiles.filter
        (fun q' => !(keepMetaSpec eps entries q'))).map Prod.fst :=
      List.mem_map.mpr ⟨q, List.mem_filter.mpr ⟨hq, by simp [hk']⟩, rfl⟩
    have hcont : ((metaFiles.filter (fun q' => !(keepMetaSpec eps entries
        q'))).map Prod.fst).contains q.1 = true :=
      List.elem_iff.mpr hmem
    show (!(((metaFiles.filter (fun q' => !(keepMetaSpec eps entries
        q'))).map Prod.fst).contains q.1)) = keepMetaSpec eps entries q
    rw [hcont, hk']
    rfl

/-- Concrete run of `get_dir_meta_merge` (eps 2): `a.txt` drifts only 2
seconds past its upload time and keeps the stored mtime 500; `b.txt` changed
size, so its record is dropped and the reported mtime stays; `c.txt` has no
record and is untouched; the record of the unlisted `gone.txt` is removed. -/
theorem get_dir_meta_merge_witness :
    getDirMergeMeta 2
        [{ name := "a.txt", size := 10, mtime := 512 },
         { name := "b.txt", size := 4, mtime := 100 },
         { name := "c.txt", size := 1, mtime := 50 }]
        [("a.txt", { s := some 10, m := 500, u := some 510 }),
         ("b.txt", { s := some 5, m := 90, u := some 95 }),
         ("gone.txt", { s := some 1, m := 1, u := some 1 })] =
      ([{ name := "a.txt", size := 10, mtime := 500 },
        { name := "b.txt", size := 4, mtime := 100 },
        { name := "c.txt", size := 1, mtime := 50 }],
       [("a.txt", { s := some 10, m := 500, u := some 510 })]) := by
  rw [get_dir_meta_merge 2 _ _ (by decide) (by decide)]
  simp [mergeEntrySpec, keepMetaSpec, discardMeta, List.filter_cons]
  norm_num

end PyFtpSync
